import Mathlib

/-!
Verification of the `structure` package (a Go library for reading, writing,
mutating and rotating Minecraft `.mcstructure` documents) against its
natural-language specification.

The development shallowly embeds the package's data model and operations:

* Go `map[string]interface{}` property maps become association lists over an
  inductive scalar type `Val`; the zero value of a Go interface (what a map
  read yields for a missing key) is modelled by `Val.vnil`.
* Go slices become `List`; unchecked or `unsafe`-pointer indexing is modelled
  by `Option`-valued access that returns `none` exactly where the Go code
  panics or performs an out-of-range (undefined-behaviour) access.
* The external block catalog (`world.BlockByName`, `EncodeBlock`, the
  `world.NBTer` / `world.Liquid` interfaces, `blockupgrader.Upgrade` and the
  reflection-driven per-field rotation) is an explicit `Catalog` parameter, as
  the specification's design notes direct.
* `int32` arithmetic that can overflow (the volume computation
  `Size[0]*Size[1]*Size[2]`) is modelled with an explicit wrap `wrap32`.

Functions keep the source's names, suffixed with `B` where a bare name would
collide with Mathlib (`Set`, `At`, ...).
-/

set_option maxHeartbeats 1000000

namespace McStructure

/-- Scalar values stored in block property maps and NBT payloads. The Go code
stores them as `interface{}`; `vnil` models the zero value of an interface,
which is what the map read `bVal, _ := properties[k]` yields for an absent
key. -/
inductive Val where
  | vnil
  | vint (n : Int)
  | vstr (s : String)
  | vbool (b : Bool)
deriving DecidableEq

/-- A Go `map[string]interface{}`, modelled as an association list. Go map
keys are unique; well-formedness (key `Nodup`) is assumed explicitly where a
proof needs it. -/
abbrev Props := List (String × Val)

/-- Go map read `bVal, _ := m[k]`: the binding for the key, or the interface
zero value when the key is absent. -/
def propsGet (ps : Props) (k : String) : Val :=
  match ps.find? (fun p => p.1 == k) with
  | some p => p.2
  | none => .vnil

/-- Association-list lookup, modelling a read of a Go `map[string]T`. -/
def alookup {α : Type} (m : List (String × α)) (k : String) : Option α :=
  match m.find? (fun p => p.1 == k) with
  | some p => some p.2
  | none => none

/-- Association-list write, modelling the Go map assignment `m[k] = v`
(update in place when the key exists, insert otherwise). -/
def aupdate {α : Type} (m : List (String × α)) (k : String) (v : α) :
    List (String × α) :=
  if m.any (fun p => p.1 == k) then
    m.map (fun p => if p.1 == k then (k, v) else p)
  else m ++ [(k, v)]

/-- Checked list read at a Go `int` index. `none` marks the places where the
Go code would panic (ordinary indexing) or touch memory out of range (the
`unsafe.Pointer` reads in `At`). -/
def getI {α : Type} (xs : List α) (i : Int) : Option α :=
  if 0 ≤ i then xs[i.toNat]? else none

/-- Checked list write at a Go `int` index; `none` where `xs[i] = v` panics. -/
def setI {α : Type} (xs : List α) (i : Int) (v : α) : Option (List α) :=
  if 0 ≤ i ∧ i.toNat < xs.length then some (xs.set i.toNat v) else none

/-- Two's-complement wrap of an integer into `int32` range, for the places
where the Go code does `int32` arithmetic that may overflow. -/
def wrap32 (n : Int) : Int := (n + 2 ^ 31) % 2 ^ 32 - 2 ^ 31

/-- One Go `int32` multiplication (wrapping). -/
def go32mul (a b : Int) : Int := wrap32 (a * b)

/-- A palette entry: Go type `block` (fields `name`, `states`, `version`). -/
structure Entry where
  name : String
  states : Props
  version : Int
deriving DecidableEq

/-- Per-position auxiliary payload: Go `blockPositionData.BlockEntityData`. -/
abbrev NbtData := Props

/-- Go type `palette`: the ordered entry table plus the sparse
position-keyed payload table (keyed by `strconv.Itoa(offset)`). -/
structure Pal where
  blockPalette : List Entry
  blockPositionData : List (String × NbtData)
deriving DecidableEq

/-- The NBT-visible fields of the Go `structure` value (with `structureData`
inlined). `palettes = none` models a `nil` Go map, which `check` lazily
initialises; entity blobs are carried through unexamined. -/
structure RawStructure where
  formatVersion : Int
  size : List Int
  origin : List Int
  blockIndices : List (List Int)
  entities : List Props
  palettes : Option (List (String × Pal))
deriving DecidableEq

/-- A runtime `world.Block` value as this package observes it: its encoded
identity (`EncodeBlock`), whether it implements `world.NBTer` (and if so its
`EncodeNBT` payload), and whether it implements `world.Liquid`.
`DecodeNBT` is modelled as replacing the payload. -/
structure Block where
  name : String
  props : Props
  nbt : Option NbtData
  liquid : Bool
deriving DecidableEq

/-- Go type `parsedBlock`: a cached catalog resolution. `b = none` is the nil
interface stored when `world.BlockByName` failed. -/
structure ParsedBlock where
  b : Option Block
  hasNBT : Bool
deriving DecidableEq

/-- The external block catalog and upgrader, abstracted as the specification's
design notes direct: `resolve` is `world.BlockByName`, `upgrade` is
`blockupgrader.Upgrade`, and `rotateBlock` abstracts the reflection loop that
invokes `RotateLeft` / `RotateRight` on every rotate-capable exported field of
a resolved block value. -/
structure Catalog where
  upgrade : Entry → String × Props
  resolve : String → Props → Option Block
  rotateBlock : Int → Block → Block

/-- `chunk.CurrentBlockVersion`, an opaque external constant; its value is
irrelevant to every claim. -/
def currentBlockVersion : Int := 18163713

/-- The in-memory Go `structure` value. `palette`/`paletteName` are the
active-palette working copy; `parsedPalette` the resolution cache; `l`, `h`
the cached `Size[2]`, `Size[1]`; `blocks`/`liquids` the layer slices installed
by `prepare` (`none` = nil slice / nil `unsafe.Pointer`); `snapshot` the
parsed-palette array pinned by `palettePtr` at `prepare` time — later appends
reallocate the slice (its capacity is exact), so `At`'s unsafe reads keep
seeing this frozen array. `Set` writes both the layer caches and the
underlying `raw.blockIndices`, mirroring the Go slice aliasing. -/
structure Struct where
  raw : RawStructure
  palette : Option Pal
  paletteName : String
  parsedPalette : List ParsedBlock
  l : Int
  h : Int
  blocks : Option (List Int)
  liquids : Option (List Int)
  snapshot : Option (List ParsedBlock)
deriving DecidableEq

/-- A freshly decoded `structure` value: every non-NBT field is at its Go
zero value. -/
def mkStruct (raw : RawStructure) : Struct :=
  ⟨raw, none, "", [], 0, 0, none, none, none⟩

/-- The validation error kinds, one per `return fmt.Errorf(...)` site of
`check`, named as in the specification's error-handling section. -/
inductive CheckErr where
  | unsupportedVersion
  | badExtent
  | badOrigin
  | noLayers
  | noPalettes
  | layerSizeMismatch
  | paletteSizeMismatch
deriving DecidableEq

/-- The volume `int(s.Size[0] * s.Size[1] * s.Size[2])` computed with Go
`int32` (wrapping) multiplications. -/
def rawVolume (s : RawStructure) : Int :=
  go32mul (go32mul (s.size.getD 0 0) (s.size.getD 1 0)) (s.size.getD 2 0)

/-- The cross-palette consistency condition of `check`'s final loop: the Go
code compares every palette's length against the first one seen in
(unspecified) map iteration order, which accepts exactly when all lengths
agree. -/
def palLensEq (m : List (String × Pal)) : Prop :=
  ∀ p ∈ m, ∀ q ∈ m, p.2.blockPalette.length = q.2.blockPalette.length

instance (m : List (String × Pal)) : Decidable (palLensEq m) := by
  unfold palLensEq; infer_instance

/-- `(*structure).check`: the validation pass, in source order, failing fast
on the first violation. Its only mutation is the lazy initialisation of a nil
palette map, reflected in the returned value. -/
def check (s : RawStructure) : Except CheckErr RawStructure :=
  if s.formatVersion ≠ 1 then .error .unsupportedVersion
  else if s.size.length ≠ 3 then .error .badExtent
  else if s.origin.length ≠ 3 then .error .badOrigin
  else
    let s' : RawStructure := {s with palettes := some (s.palettes.getD [])}
    if s'.blockIndices.length = 0 then .error .noLayers
    else if (s'.palettes.getD []).length = 0 then .error .noPalettes
    else if ¬ (∀ l ∈ s'.blockIndices, (l.length : Int) = rawVolume s') then
      .error .layerSizeMismatch
    else if ¬ palLensEq (s'.palettes.getD []) then .error .paletteSizeMismatch
    else .ok s'

/-- The grid offset used by `Set` and `At`:
`(x * s.l * s.h) + (y * s.l) + z`, with `l = Size[2]` and `h = Size[1]`
installed by `prepare`. -/
def gridOffset (l h x y z : Int) : Int := x * l * h + y * l + z

/-- `(*structure).parsePaletteEntry`: upgrade the entry, resolve it through
the catalog (ignoring the found flag, as the source does) and record whether
the resolved value implements `world.NBTer`. -/
def parseEntry (cat : Catalog) (bl : Entry) : ParsedBlock :=
  let up := cat.upgrade bl
  let b := cat.resolve up.1 up.2
  ⟨b, match b with | some bb => bb.nbt.isSome | none => false⟩

/-- `(Structure).UsePalette`: store the current working palette back into the
map (only when one is active), fetch-or-create the named palette, make it
active and rebuild the parsed cache (`parsePalette`). A Go nil
`BlockPositionData` map is initialised here; the association-list model makes
that a no-op. The `palettePtr` snapshot is NOT refreshed (`prepare` is not
called). -/
def UsePaletteB (cat : Catalog) (s : Struct) (name : String) : Struct :=
  let s0 :=
    match s.palette with
    | some cur =>
        let m := aupdate (s.raw.palettes.getD []) s.paletteName cur
        {s with raw := {s.raw with palettes := some m}}
    | none => s
  let p := (alookup (s0.raw.palettes.getD []) name).getD ⟨[], []⟩
  {s0 with palette := some p, paletteName := name,
           parsedPalette := p.blockPalette.map (parseEntry cat)}

/-- `(*structure).prepare`: cache `l`, `h`, return early on zero volume, then
install the layer slices and pin the parsed-palette array. Each `&slice[0]`
panics on an empty slice — in particular the final
`unsafe.Pointer(&s.parsedPalette[0])` panics whenever the parsed palette is
empty, which is the state `New` leaves it in. -/
def prepareB (s : Struct) : Option Struct :=
  match getI s.raw.size 2, getI s.raw.size 1, getI s.raw.size 0 with
  | some sz, some sy, some sx =>
    let s1 := {s with l := sz, h := sy}
    if go32mul (go32mul sx sy) sz = 0 then some s1
    else
      match getI s1.raw.blockIndices 0 with
      | none => none
      | some blocks =>
        match getI blocks 0 with
        | none => none
        | some _ =>
          let s2 := {s1 with blocks := some blocks}
          let step :=
            if s2.raw.blockIndices.length > 1 then
              match getI s2.raw.blockIndices 1 with
              | none => none
              | some liqs =>
                match getI liqs 0 with
                | none => none
                | some _ => some {s2 with liquids := some liqs}
            else some s2
          match step with
          | none => none
          | some s3 =>
            match getI s3.parsedPalette 0 with
            | none => none
            | some _ => some {s3 with snapshot := some s3.parsedPalette}
  | _, _, _ => none

/-- The property-match test inside `lookup`: for every key held by the stored
entry's states, the queried properties must carry an equal value (a missing
key reads as the interface zero value `vnil`). Keys present only in the query
are not examined. -/
def entryMatches (states props : Props) : Bool :=
  states.all (fun kv => propsGet props kv.1 == kv.2)

/-- The index-tracking loop of `lookup`. -/
def lookupAux (pal : List Entry) (name : String) (props : Props) (idx : Int) :
    Int :=
  match pal with
  | [] => -1
  | e :: rest =>
    if e.name = name ∧ entryMatches e.states props then idx
    else lookupAux rest name props (idx + 1)

/-- `(*structure).lookup`: linear scan of the active palette; first match
wins; `-1` when nothing matches. -/
def lookup (pal : List Entry) (name : String) (props : Props) : Int :=
  lookupAux pal name props 0

/-- `(*structure).ptrFor`: encode the block, look it up, and on a miss append
a fresh entry (pointer = length before the append) and parse it into the
cache. `none` models the nil-pointer panic of reading `s.palette` when no
palette is active. -/
def ptrFor (cat : Catalog) (s : Struct) (b : Block) : Option (Int × Struct) :=
  match s.palette with
  | none => none
  | some pal =>
    let ptr := lookup pal.blockPalette b.name b.props
    if ptr = -1 then
      let bl : Entry := ⟨b.name, b.props, currentBlockVersion⟩
      some ((pal.blockPalette.length : Int),
        {s with palette := some {pal with blockPalette := pal.blockPalette ++ [bl]},
                parsedPalette := s.parsedPalette ++ [parseEntry cat bl]})
    else some (ptr, s)

/-- The tail of `Set` that writes the liquid layer: the `-1` sentinel when no
liquid was passed, otherwise a palette pointer for the liquid. Writing through
a nil `liquids` slice (single-layer structures) panics. -/
def setLiquid (cat : Catalog) (s : Struct) (offset : Int) (liq : Option Block) :
    Option Struct :=
  match liq with
  | none =>
    match s.liquids with
    | none => none
    | some liqs =>
      match setI liqs offset (-1) with
      | none => none
      | some liqs' =>
        some {s with liquids := some liqs',
                     raw := {s.raw with blockIndices := s.raw.blockIndices.set 1 liqs'}}
  | some lb =>
    match ptrFor cat s lb with
    | none => none
    | some (lptr, s4) =>
      match s4.liquids with
      | none => none
      | some liqs =>
        match setI liqs offset lptr with
        | none => none
        | some liqs' =>
          some {s4 with liquids := some liqs',
                        raw := {s4.raw with blockIndices := s4.raw.blockIndices.set 1 liqs'}}

/-- `(*structure).Set`: write a palette pointer for the block into layer 0 at
the grid offset, store the block's encoded NBT payload when it implements
`world.NBTer`, then write the liquid layer. A nil block argument panics inside
`b.EncodeBlock()`. The layer writes also update `raw.blockIndices`, since the
Go slices alias. -/
def SetB (cat : Catalog) (s : Struct) (x y z : Int) (b liq : Option Block) :
    Option Struct :=
  let offset := gridOffset s.l s.h x y z
  match b with
  | none => none
  | some bb =>
    match ptrFor cat s bb with
    | none => none
    | some (ptr, s1) =>
      match s1.blocks with
      | none => none
      | some blocks =>
        match setI blocks offset ptr with
        | none => none
        | some blocks' =>
          let s2 := {s1 with blocks := some blocks',
                             raw := {s1.raw with blockIndices := s1.raw.blockIndices.set 0 blocks'}}
          match bb.nbt with
          | some payload =>
            match s2.palette with
            | none => none
            | some pal =>
              setLiquid cat
                {s2 with palette := some {pal with
                  blockPositionData :=
                    aupdate pal.blockPositionData (toString offset) payload}}
                offset liq
          | none => setLiquid cat s2 offset liq

/-- The payload-merge step of `At`: for a cache entry flagged `hasNBT`, look
up the stored payload under the decimal offset key and, when present, return
`DecodeNBT` of the resolved block (modelled as replacing its payload). The Go
type assertion `entry.b.(world.NBTer)` panics on a nil or non-NBT value. -/
def mergeNBT (s : Struct) (entry : ParsedBlock) (offset : Int) :
    Option (Option Block) :=
  if entry.hasNBT then
    match s.palette with
    | none => none
    | some pal =>
      match alookup pal.blockPositionData (toString offset) with
      | none => some entry.b
      | some nbtData =>
        match entry.b with
        | some bb =>
          if bb.nbt.isSome then some (some {bb with nbt := some nbtData})
          else none
        | none => none
  else some entry.b

/-- `(*structure).At`: unsafe reads of the layer arrays and of the
parsed-palette array pinned at `prepare` time (`snapshot`). `-1` means
"nothing here". `none` models a panic or an out-of-range unsafe access
(nil pointers, offsets or palette indices outside the arrays, and the
unchecked `en.b.(world.Liquid)` assertion). -/
def AtB (s : Struct) (x y z : Int) : Option (Option Block × Option Block) :=
  let offset := gridOffset s.l s.h x y z
  match s.blocks with
  | none => none
  | some blocks =>
    match getI blocks offset with
    | none => none
    | some idx =>
      if idx = -1 then some (none, none)
      else
        match s.snapshot with
        | none => none
        | some snap =>
          match getI snap idx with
          | none => none
          | some entry =>
            match mergeNBT s entry offset with
            | none => none
            | some b =>
              match s.liquids with
              | none => some (b, none)
              | some liqs =>
                match getI liqs offset with
                | none => none
                | some lidx =>
                  if lidx = -1 then some (b, none)
                  else
                    match getI snap lidx with
                    | none => none
                    | some en =>
                      match en.b with
                      | none => none
                      | some lb =>
                        if lb.liquid then some (b, some lb) else none

/-- The default palette entry `New` appends: `minecraft:air` with no states at
the current block version. -/
def airEntry : Entry := ⟨"minecraft:air", [], currentBlockVersion⟩

/-- `Read` (with the external NBT decoding treated as already done): validate,
activate the "default" palette, and prepare the fast-access caches. Any
`check` failure yields no document; `UsePalette`/`prepare` panics also yield
none. -/
def ReadB (cat : Catalog) (raw : RawStructure) : Option Struct :=
  match check raw with
  | .error _ => none
  | .ok r => prepareB (UsePaletteB cat (mkStruct r) "default")

/-- `New`: allocate both layers (layer 0 zeroed, layer 1 all `-1`), activate
the "default" palette, append the air entry directly to the palette — without
parsing it into the cache — and call `prepare`. The sizes are stored through
`int32` conversions. `none` models a panic (`make` with negative length, or
`prepare`'s indexing of the still-empty parsed palette). -/
def NewB (cat : Catalog) (d0 d1 d2 : Int) : Option Struct :=
  let vol := d0 * d1 * d2
  if vol < 0 then none
  else
    let front : List Int := List.replicate vol.toNat 0
    let liqs : List Int := List.replicate vol.toNat (-1)
    let raw : RawStructure :=
      ⟨1, [wrap32 d0, wrap32 d1, wrap32 d2], [0, 0, 0], [front, liqs], [], some []⟩
    let s1 := UsePaletteB cat (mkStruct raw) "default"
    match s1.palette with
    | none => none
    | some pal =>
      prepareB {s1 with palette := some {pal with blockPalette := pal.blockPalette ++ [airEntry]}}

/-- `Write` (with the external NBT encoding treated as the identity on the
raw document): fold the active working palette back into the named-palette
map, then emit the raw document. Dereferencing a nil active palette panics. -/
def WriteB (s : Struct) : Option RawStructure :=
  match s.palette with
  | none => none
  | some pal =>
    let m := aupdate (s.raw.palettes.getD []) s.paletteName pal
    some {s.raw with palettes := some m}

/-- One palette entry of the second pass of `rotate`: re-resolve it, skip it
untouched when the catalog cannot (`continue`), otherwise rotate every
rotate-capable exported field (abstracted as `Catalog.rotateBlock`),
re-encode, and keep the original version. -/
def rotateEntry (cat : Catalog) (direction : Int) (state : Entry) : Entry :=
  match cat.resolve state.name state.states with
  | none => state
  | some b =>
    let b' := cat.rotateBlock direction b
    ⟨b'.name, b'.props, state.version⟩

/-- The source-cell traversal order of `rotate`'s triple loop
(`x` outer, then `y`, then `z`). -/
def rotCoords (sizeX sizeY sizeZ : Int) : List (Int × Int × Int) :=
  (List.range sizeX.toNat).flatMap fun x =>
    (List.range sizeY.toNat).flatMap fun y =>
      (List.range sizeZ.toNat).map fun z => ((x : Int), (y : Int), (z : Int))

/-- `(Structure).rotate`: allocate a `New` document with X and Z swapped; for
every source cell copy the `At` pair via `Set` to the rotated coordinate
(right turn `direction = 1`: `newX = maxZ - z, newZ = x`; otherwise left:
`newX = z, newZ = maxX - x`; `y` unchanged); then rewrite every entry of the
source's active palette in place. Returns the new document together with the
palette-mutated source. -/
def rotateB (cat : Catalog) (s : Struct) (direction : Int) :
    Option (Struct × Struct) :=
  match getI s.raw.size 0, getI s.raw.size 1, getI s.raw.size 2 with
  | some sizeX, some sizeY, some sizeZ =>
    match NewB cat sizeZ sizeY sizeX with
    | none => none
    | some n0 =>
      let maxX := sizeX - 1
      let maxZ := sizeZ - 1
      let geo := (rotCoords sizeX sizeY sizeZ).foldlM
        (fun acc c =>
          match AtB s c.1 c.2.1 c.2.2 with
          | none => none
          | some bl =>
            let newX := if direction = 1 then maxZ - c.2.2 else c.2.2
            let newZ := if direction = 1 then c.1 else maxX - c.1
            SetB cat acc newX c.2.1 newZ bl.1 bl.2) n0
      match geo with
      | none => none
      | some n =>
        match s.palette with
        | none => none
        | some pal =>
          let pal' := {pal with blockPalette := pal.blockPalette.map (rotateEntry cat direction)}
          some (n, {s with palette := some pal'})
  | _, _, _ => none

/-! ### Concrete instances

A small catalog and a handful of concrete documents, used to evaluate the
model (witnesses, counterexamples, failing inputs). The catalog resolves air
and stone as plain blocks, chests as payload-carrying (`world.NBTer`) blocks
and water as a liquid; everything else is unresolvable. -/

/-- A toy block catalog for concrete evaluations. -/
def catEx : Catalog where
  upgrade := fun e => (e.name, e.states)
  resolve := fun name props =>
    if name = "minecraft:air" then some ⟨"minecraft:air", props, none, false⟩
    else if name = "minecraft:stone" then some ⟨"minecraft:stone", props, none, false⟩
    else if name = "minecraft:chest" then some ⟨"minecraft:chest", props, some [], false⟩
    else if name = "minecraft:water" then some ⟨"minecraft:water", props, none, true⟩
    else none
  rotateBlock := fun _ b => b

/-- A `minecraft:chest` palette entry (payload-capable under `catEx`). -/
def chestEntry : Entry := ⟨"minecraft:chest", [], currentBlockVersion⟩

/-- A valid 1×1×1 two-layer document: one air cell, no liquid. -/
def rawTiny : RawStructure :=
  ⟨1, [1, 1, 1], [0, 0, 0], [[0], [-1]], [], some [("default", ⟨[airEntry], []⟩)]⟩

/-- The structure obtained by reading `rawTiny` (the read succeeds). -/
def sTiny : Struct := (ReadB catEx rawTiny).getD (mkStruct rawTiny)

/-- A document that passes validation although its single grid cell points at
palette index 5 while the palette holds one entry. -/
def rawBadIndex : RawStructure :=
  ⟨1, [1, 1, 1], [0, 0, 0], [[5]], [], some [("default", ⟨[airEntry], []⟩)]⟩

/-- The structure obtained by reading `rawBadIndex` (the read succeeds). -/
def sBadIndex : Struct := (ReadB catEx rawBadIndex).getD (mkStruct rawBadIndex)

/-- A valid document whose `block_indices` holds exactly one layer. -/
def rawOneLayer : RawStructure :=
  ⟨1, [1, 1, 1], [0, 0, 0], [[0]], [], some [("default", ⟨[airEntry], []⟩)]⟩

/-- The structure obtained by reading `rawOneLayer` (the read succeeds). -/
def sOneLayer : Struct := (ReadB catEx rawOneLayer).getD (mkStruct rawOneLayer)

/-- A valid 2×5×7 two-layer all-air document, for the rotation claims. -/
def raw257 : RawStructure :=
  ⟨1, [2, 5, 7], [0, 0, 0], [List.replicate 70 0, List.replicate 70 (-1)], [],
    some [("default", ⟨[airEntry], []⟩)]⟩

/-- The structure obtained by reading `raw257` (the read succeeds). -/
def s257 : Struct := (ReadB catEx raw257).getD (mkStruct raw257)

/-- A valid 1×1×1 document whose default palette also carries a chest entry,
for the auxiliary-payload claims. -/
def rawChest : RawStructure :=
  ⟨1, [1, 1, 1], [0, 0, 0], [[0], [-1]], [],
    some [("default", ⟨[airEntry, chestEntry], []⟩)]⟩

/-- The structure obtained by reading `rawChest` (the read succeeds). -/
def sChest : Struct := (ReadB catEx rawChest).getD (mkStruct rawChest)

/-- A stale chest payload. -/
def payloadP : NbtData := [("items", .vint 1)]

/-- A fresh chest payload, distinct from `payloadP`. -/
def payloadQ : NbtData := [("items", .vint 2)]

/-- A chest block value carrying payload `payloadP`. -/
def chestP : Block := ⟨"minecraft:chest", [], some payloadP, false⟩

/-- A chest block value carrying payload `payloadQ`. -/
def chestQ : Block := ⟨"minecraft:chest", [], some payloadQ, false⟩

/-- A plain stone block (no NBT capability). -/
def stoneB : Block := ⟨"minecraft:stone", [], none, false⟩

/-- `sTiny` after placing a stone block (a genuinely new palette entry). -/
def sTinyStone : Struct := (SetB catEx sTiny 0 0 0 (some stoneB) none).getD sTiny

/-- `sChest` after placing the chest with payload `payloadP`. -/
def sChest1 : Struct :=
  (SetB catEx sChest 0 0 0 (some chestP) none).getD sChest

/-- `sChest1` after overwriting the cell with stone (no NBT capability): the
chest payload stays in the table. -/
def sChest2 : Struct :=
  (SetB catEx sChest1 0 0 0 (some stoneB) none).getD sChest1

/-- `sChest2` after placing a chest again, now carrying `payloadQ`. -/
def sChest3 : Struct :=
  (SetB catEx sChest2 0 0 0 (some chestQ) none).getD sChest2

/-- An in-memory document whose active palette is named "custom": the shape
`Write` produces for a caller that switched palettes before writing. Both
layers are full-sized, so the folded document passes validation. -/
def sCustom : Struct :=
  { raw := ⟨1, [1, 1, 1], [0, 0, 0], [[0], [-1]], [], some []⟩
    palette := some ⟨[airEntry], []⟩
    paletteName := "custom"
    parsedPalette := [parseEntry catEx airEntry]
    l := 1
    h := 1
    blocks := some [0]
    liquids := some [-1]
    snapshot := some [parseEntry catEx airEntry] }

/-- The raw document `Write` emits for `sCustom`. -/
def rawCustom : RawStructure := (WriteB sCustom).getD sCustom.raw

/-- An in-memory document identical to `sCustom` except that its active
palette is named "default", for the round-trip witness. -/
def sDefault : Struct := {sCustom with paletteName := "default"}

/-- The raw document `Write` emits for `sDefault`. -/
def rawDefault : RawStructure := (WriteB sDefault).getD sDefault.raw

/-! ### Helper lemmas -/

/-- `check` rejects a wrong format version first. -/
theorem check_err_version (s : RawStructure) (h : s.formatVersion ≠ 1) :
    check s = .error .unsupportedVersion := by
  unfold check
  rw [if_pos h]

/-- `check` rejects a mis-sized extent triple after the version test. -/
theorem check_err_extent (s : RawStructure) (h1 : s.formatVersion = 1)
    (h2 : s.size.length ≠ 3) : check s = .error .badExtent := by
  unfold check
  split_ifs <;> simp_all

/-- `check` rejects a mis-sized origin triple third. -/
theorem check_err_origin (s : RawStructure) (h1 : s.formatVersion = 1)
    (h2 : s.size.length = 3) (h3 : s.origin.length ≠ 3) :
    check s = .error .badOrigin := by
  unfold check
  split_ifs <;> simp_all

/-- `check` rejects a document with no grid layers. -/
theorem check_err_noLayers (s : RawStructure) (h1 : s.formatVersion = 1)
    (h2 : s.size.length = 3) (h3 : s.origin.length = 3)
    (h4 : s.blockIndices.length = 0) : check s = .error .noLayers := by
  unfold check
  split_ifs <;> simp_all

/-- `check` rejects a document with no palettes (after lazily initialising a nil palette map). -/
theorem check_err_noPalettes (s : RawStructure) (h1 : s.formatVersion = 1)
    (h2 : s.size.length = 3) (h3 : s.origin.length = 3)
    (h4 : s.blockIndices.length ≠ 0) (h5 : (s.palettes.getD []).length = 0) :
    check s = .error .noPalettes := by
  unfold check
  split_ifs <;> simp_all

/-- `check` rejects a grid layer whose length differs from the volume. -/
theorem check_err_layer (s : RawStructure) (h1 : s.formatVersion = 1)
    (h2 : s.size.length = 3) (h3 : s.origin.length = 3)
    (h4 : s.blockIndices.length ≠ 0) (h5 : (s.palettes.getD []).length ≠ 0)
    (h6 : ¬ (∀ l ∈ s.blockIndices, (l.length : Int) = rawVolume s)) :
    check s = .error .layerSizeMismatch := by
  unfold check
  split_ifs <;> simp_all [rawVolume]

/-- `check` rejects palettes of differing entry counts last. -/
theorem check_err_palLen (s : RawStructure) (h1 : s.formatVersion = 1)
    (h2 : s.size.length = 3) (h3 : s.origin.length = 3)
    (h4 : s.blockIndices.length ≠ 0) (h5 : (s.palettes.getD []).length ≠ 0)
    (h6 : ∀ l ∈ s.blockIndices, (l.length : Int) = rawVolume s)
    (h7 : ¬ palLensEq (s.palettes.getD [])) :
    check s = .error .paletteSizeMismatch := by
  unfold check
  split_ifs <;> simp_all [rawVolume, palLensEq]

/-- A successful `check` returns its input unchanged except for the lazy palette-map initialisation. -/
theorem check_ok_shape (s r : RawStructure) (h : check s = .ok r) :
    r = {s with palettes := some (s.palettes.getD [])} := by
  unfold check at h
  dsimp only at h
  split_ifs at h <;> cases h
  rfl

/-- A successful `check` certifies every condition of the validation pass. -/
theorem check_ok_conds (s r : RawStructure) (h : check s = .ok r) :
    s.formatVersion = 1 ∧ s.size.length = 3 ∧ s.origin.length = 3 ∧
    s.blockIndices.length ≠ 0 ∧ (s.palettes.getD []).length ≠ 0 ∧
    (∀ l ∈ s.blockIndices, (l.length : Int) = rawVolume s) ∧
    palLensEq (s.palettes.getD []) := by
  unfold check at h
  dsimp only at h
  split_ifs at h with h1 h2 h3 h4 h5 h6 h7 <;> try cases h
  simp only [Option.getD_some] at h5 h7
  refine ⟨by tauto, by tauto, by tauto, h4, h5, ?_, h7⟩
  have h6' := not_not.mp (by simpa using h6)
  intro l hl
  have := h6' l hl
  simpa [rawVolume] using this

/-- `Read` returns no document when `check` fails. -/
theorem readB_of_check_error (s : RawStructure) (e : CheckErr)
    (h : check s = .error e) (c : Catalog) : ReadB c s = none := by
  unfold ReadB
  rw [h]

/-- Reading back an index just written. -/
theorem getI_setI {α : Type} (xs ys : List α) (i : Int) (v : α)
    (h : setI xs i v = some ys) : getI ys i = some v := by
  unfold setI at h
  split_ifs at h with hc
  cases h
  unfold getI
  rw [if_pos hc.1]
  simp [List.getElem?_set_self', hc.2]

/-- Checked read of the head element. -/
theorem getI_cons_zero {α : Type} (a : α) (l : List α) : getI (a :: l) 0 = some a := by
  simp [getI]

/-- Checked read of the second element. -/
theorem getI_cons_one {α : Type} (a b : α) (l : List α) :
    getI (a :: b :: l) 1 = some b := by
  simp [getI]

/-- Checked read of the third element. -/
theorem getI_cons_two {α : Type} (a b c : α) (l : List α) :
    getI (a :: b :: c :: l) 2 = some c := by
  simp [getI]

/-- `ptrFor` either returns the index found by `lookup`, or appends a fresh entry (parsing it into the cache) and returns the pre-append length. -/
theorem ptrFor_eq (cat : Catalog) (s : Struct) (b : Block) (pal : Pal)
    (hpal : s.palette = some pal) :
    ptrFor cat s b =
      (if lookup pal.blockPalette b.name b.props = -1 then
        some ((pal.blockPalette.length : Int),
          {s with palette := some {pal with blockPalette := pal.blockPalette ++ [⟨b.name, b.props, currentBlockVersion⟩]},
                  parsedPalette := s.parsedPalette ++ [parseEntry cat ⟨b.name, b.props, currentBlockVersion⟩]})
       else some (lookup pal.blockPalette b.name b.props, s)) := by
  unfold ptrFor
  rw [hpal]

/-- `ptrFor` never touches the liquid layer. -/
theorem ptrFor_liquids (cat : Catalog) (t : Struct) (b : Block) (p : Int)
    (s4 : Struct) (h : ptrFor cat t b = some (p, s4)) : s4.liquids = t.liquids := by
  unfold ptrFor at h
  cases hp : t.palette with
  | none => rw [hp] at h; cases h
  | some pal =>
    rw [hp] at h
    dsimp only at h
    split_ifs at h
    · injection h with h'
      have h2 := congrArg Prod.snd h'
      dsimp only at h2
      rw [← h2]
    · injection h with h'
      have h2 := congrArg Prod.snd h'
      dsimp only at h2
      rw [← h2]

/-- `UsePalette` on a freshly decoded structure (no active palette yet): no store-back happens; the named palette is fetched and parsed. -/
theorem usePaletteB_mkStruct (cat : Catalog) (r : RawStructure) (name : String) :
    UsePaletteB cat (mkStruct r) name =
      {mkStruct r with
        palette := some ((alookup (r.palettes.getD []) name).getD ⟨[], []⟩),
        paletteName := name,
        parsedPalette :=
          ((alookup (r.palettes.getD []) name).getD ⟨[], []⟩).blockPalette.map
            (parseEntry cat)} := rfl

/-- `prepare` changes only the cached fields; in particular it leaves `liquids` untouched when the document has at most one layer. -/
theorem prepareB_fields (s s' : Struct) (h : prepareB s = some s') :
    s'.raw = s.raw ∧ s'.palette = s.palette ∧ s'.paletteName = s.paletteName ∧
    s'.parsedPalette = s.parsedPalette ∧
    (s.raw.blockIndices.length ≤ 1 → s'.liquids = s.liquids) := by
  unfold prepareB at h
  cases h2 : getI s.raw.size 2 with
  | none => rw [h2] at h; cases h
  | some sz =>
  cases h1 : getI s.raw.size 1 with
  | none => rw [h2, h1] at h; cases h
  | some sy =>
  cases h0 : getI s.raw.size 0 with
  | none => rw [h2, h1, h0] at h; cases h
  | some sx =>
  rw [h2, h1, h0] at h
  dsimp only at h
  by_cases hv : go32mul (go32mul sx sy) sz = 0
  · rw [if_pos hv] at h
    cases h
    exact ⟨rfl, rfl, rfl, rfl, fun _ => rfl⟩
  · rw [if_neg hv] at h
    cases hbi : getI s.raw.blockIndices 0 with
    | none => rw [hbi] at h; cases h
    | some blocks =>
    rw [hbi] at h
    dsimp only at h
    cases hb0 : getI blocks 0 with
    | none => rw [hb0] at h; cases h
    | some w =>
    rw [hb0] at h
    dsimp only at h
    by_cases hlen : s.raw.blockIndices.length > 1
    · rw [if_pos hlen] at h
      cases hbi1 : getI s.raw.blockIndices 1 with
      | none => rw [hbi1] at h; cases h
      | some liqs =>
      rw [hbi1] at h
      dsimp only at h
      cases hl0 : getI liqs 0 with
      | none => rw [hl0] at h; cases h
      | some w1 =>
      rw [hl0] at h
      dsimp only at h
      cases hpp : getI s.parsedPalette 0 with
      | none => rw [hpp] at h; cases h
      | some e =>
      rw [hpp] at h
      dsimp only at h
      cases h
      exact ⟨rfl, rfl, rfl, rfl, fun hle => absurd hlen (by omega)⟩
    · rw [if_neg hlen] at h
      dsimp only at h
      cases hpp : getI s.parsedPalette 0 with
      | none => rw [hpp] at h; cases h
      | some e =>
      rw [hpp] at h
      dsimp only at h
      cases h
      exact ⟨rfl, rfl, rfl, rfl, fun _ => rfl⟩

/-- `prepare` succeeds on a document with a well-formed extent, full-sized layers and a nonempty parsed palette. -/
theorem prepareB_isSome (s : Struct)
    (hsize : s.raw.size.length = 3)
    (hlayers : ∀ l ∈ s.raw.blockIndices, (l.length : Int) = rawVolume s.raw)
    (hnl : s.raw.blockIndices ≠ [])
    (hpp : s.parsedPalette ≠ []) :
    ∃ s', prepareB s = some s' ∧ s'.raw = s.raw ∧ s'.palette = s.palette ∧
      s'.paletteName = s.paletteName := by
  obtain ⟨a, b, c, habc⟩ := List.length_eq_three.mp hsize
  have hvol : rawVolume s.raw = go32mul (go32mul a b) c := by
    simp [rawVolume, habc]
  unfold prepareB
  rw [habc]
  rw [getI_cons_two, getI_cons_one, getI_cons_zero]
  dsimp only
  by_cases hv : go32mul (go32mul a b) c = 0
  · rw [if_pos hv]
    exact ⟨_, rfl, rfl, rfl, rfl⟩
  · rw [if_neg hv]
    obtain ⟨L0, rest, hLR⟩ := List.exists_cons_of_ne_nil hnl
    have hL0len : (L0.length : Int) = rawVolume s.raw :=
      hlayers L0 (by rw [hLR]; exact List.mem_cons_self _ _)
    have hL0pos : L0 ≠ [] := by
      intro hnil
      rw [hnil] at hL0len
      simp at hL0len
      rw [hvol] at hL0len
      exact hv hL0len.symm
    obtain ⟨w, L0t, hw⟩ := List.exists_cons_of_ne_nil hL0pos
    rw [hLR]
    rw [getI_cons_zero]
    dsimp only
    rw [hw, getI_cons_zero]
    dsimp only
    obtain ⟨e, ppt, hppe⟩ := List.exists_cons_of_ne_nil hpp
    cases rest with
    | nil =>
      rw [if_neg (by simp)]
      dsimp only
      rw [hppe, getI_cons_zero]
      exact ⟨_, rfl, rfl, rfl, rfl⟩
    | cons L1 rest' =>
      rw [if_pos (by simp)]
      rw [getI_cons_one]
      dsimp only
      have hL1len : (L1.length : Int) = rawVolume s.raw :=
        hlayers L1 (by rw [hLR]; exact List.mem_cons_of_mem _ (List.mem_cons_self _ _))
      have hL1pos : L1 ≠ [] := by
        intro hnil
        rw [hnil] at hL1len
        simp at hL1len
        rw [hvol] at hL1len
        exact hv hL1len.symm
      obtain ⟨w1, L1t, hw1⟩ := List.exists_cons_of_ne_nil hL1pos
      rw [hw1, getI_cons_zero]
      dsimp only
      rw [hppe, getI_cons_zero]
      exact ⟨_, rfl, rfl, rfl, rfl⟩

/-- A successful `Read` preserves the raw document's geometry, installs an active palette, and leaves the liquid slice nil when the document has at most one layer. -/
theorem readB_some_inv (cat : Catalog) (raw : RawStructure) (s : Struct)
    (h : ReadB cat raw = some s) :
    s.raw.size = raw.size ∧ s.raw.origin = raw.origin ∧
    s.raw.blockIndices = raw.blockIndices ∧
    (∃ pal, s.palette = some pal) ∧
    (raw.blockIndices.length ≤ 1 → s.liquids = none) := by
  unfold ReadB at h
  cases hc : check raw with
  | error e => rw [hc] at h; cases h
  | ok r =>
    rw [hc] at h
    dsimp only at h
    have hr := check_ok_shape raw r hc
    subst hr
    rw [usePaletteB_mkStruct] at h
    have hf := prepareB_fields _ _ h
    rw [hf.1, hf.2.1]
    refine ⟨rfl, rfl, rfl, ⟨_, rfl⟩, fun hle => ?_⟩
    rw [hf.2.2.2.2 (by simpa using hle)]
    rfl

/-- On a well-formed (key-unique) property map, a stored binding is read back. -/
theorem propsGet_eq_of_mem (ps : Props) (k : String) (v : Val)
    (hnd : (ps.map Prod.fst).Nodup) (hmem : (k, v) ∈ ps) : propsGet ps k = v := by
  induction ps with
  | nil => cases hmem
  | cons p rest ih =>
    rw [List.map_cons, List.nodup_cons] at hnd
    rcases List.mem_cons.mp hmem with heq | hmem'
    · unfold propsGet
      rw [List.find?_cons, ← heq]
      simp
    · have hk : k ∈ rest.map Prod.fst := List.mem_map.mpr ⟨(k, v), hmem', rfl⟩
      have hne : (p.1 == k) = false := by
        rw [beq_eq_false_iff_ne]
        intro hb
        exact hnd.1 (hb ▸ hk)
      unfold propsGet
      rw [List.find?_cons, hne]
      exact ih hnd.2 hmem'

/-- A well-formed states map matches itself. -/
theorem entryMatches_self (states : Props)
    (hnd : (states.map Prod.fst).Nodup) : entryMatches states states = true := by
  unfold entryMatches
  rw [List.all_eq_true]
  intro kv hkv
  have h := propsGet_eq_of_mem states kv.1 kv.2 hnd (by rw [Prod.mk.eta]; exact hkv)
  simp [h]

/-- When the scan returns `-1`, no entry matched. -/
theorem lookupAux_eq_neg_one (pal : List Entry) (n : String) (p : Props) :
    ∀ i : Int, 0 ≤ i → lookupAux pal n p i = -1 →
      ∀ e ∈ pal, ¬(e.name = n ∧ entryMatches e.states p = true) := by
  induction pal with
  | nil => intro i _ _ e he; cases he
  | cons a rest ih =>
    intro i hi h e he
    unfold lookupAux at h
    by_cases hc : a.name = n ∧ entryMatches a.states p
    · rw [if_pos hc] at h; omega
    · rw [if_neg hc] at h
      rcases List.mem_cons.mp he with rfl | hmem
      · exact hc
      · exact ih (i + 1) (by omega) h e hmem

/-- `lookup` finds an entry whose exact (name, states) identity occurs in the palette (states well-formed). -/
theorem lookup_ne_neg_one (pal : List Entry) (n : String) (p : Props)
    (hnd : (p.map Prod.fst).Nodup)
    (hex : ∃ e ∈ pal, e.name = n ∧ e.states = p) : lookup pal n p ≠ -1 := by
  obtain ⟨e, he, hn, hs⟩ := hex
  intro hcon
  exact lookupAux_eq_neg_one pal n p 0 le_rfl hcon e he
    ⟨hn, by rw [hs]; exact entryMatches_self p hnd⟩

/-- The liquid-layer tail of `Set` never changes the stored position payloads or layer 0, and leaves the palette untouched when no liquid was passed. -/
theorem setLiquid_inv_posData (cat : Catalog) (t s' : Struct) (o : Int)
    (liq : Option Block) (palT : Pal)
    (htp : t.palette = some palT)
    (h : setLiquid cat t o liq = some s') :
    ∃ pal', s'.palette = some pal' ∧
      pal'.blockPositionData = palT.blockPositionData ∧ s'.blocks = t.blocks ∧
      (liq = none → pal' = palT) := by
  unfold setLiquid at h
  cases liq with
  | none =>
    dsimp only at h
    cases hl : t.liquids with
    | none => rw [hl] at h; cases h
    | some liqs =>
    rw [hl] at h
    dsimp only at h
    cases hs : setI liqs o (-1) with
    | none => rw [hs] at h; cases h
    | some liqs' =>
    rw [hs] at h
    cases h
    exact ⟨palT, htp, rfl, rfl, fun _ => rfl⟩
  | some lb =>
    dsimp only at h
    rw [ptrFor_eq cat t lb palT htp] at h
    by_cases hlk : lookup palT.blockPalette lb.name lb.props = -1
    · rw [if_pos hlk] at h
      dsimp only at h
      cases hl : t.liquids with
      | none => rw [hl] at h; cases h
      | some liqs =>
      rw [hl] at h
      dsimp only at h
      cases hs : setI liqs o (palT.blockPalette.length : Int) with
      | none => rw [hs] at h; cases h
      | some liqs' =>
      rw [hs] at h
      cases h
      exact ⟨_, rfl, rfl, rfl, fun hln => nomatch hln⟩
    · rw [if_neg hlk] at h
      dsimp only at h
      cases hl : t.liquids with
      | none => rw [hl] at h; cases h
      | some liqs =>
      rw [hl] at h
      dsimp only at h
      cases hs : setI liqs o (lookup palT.blockPalette lb.name lb.props) with
      | none => rw [hs] at h; cases h
      | some liqs' =>
      rw [hs] at h
      cases h
      exact ⟨palT, htp, rfl, rfl, fun hln => nomatch hln⟩

/-- The liquid-layer write panics whenever the liquid slice is nil, whatever was passed. -/
theorem setLiquid_none_of_noLayer (cat : Catalog) (t : Struct) (o : Int)
    (liq : Option Block) (h : t.liquids = none) :
    setLiquid cat t o liq = none := by
  unfold setLiquid
  cases liq with
  | none => rw [h]
  | some lb =>
    dsimp only
    cases hp : ptrFor cat t lb with
    | none => rfl
    | some pr =>
      dsimp only
      obtain ⟨lptr, s4⟩ := pr
      rw [ptrFor_liquids cat t lb lptr s4 hp, h]

/-- What a successful `Set` does to the active palette and to layer 0: the payload table is updated exactly for NBT-capable blocks, the entry table grows by the looked-up block exactly on a `lookup` miss, and the written cell holds the pre-append palette length on a miss. -/
theorem setB_inv (cat : Catalog) (s s' : Struct) (x y z : Int) (bb : Block)
    (liq : Option Block) (pal : Pal)
    (hpal : s.palette = some pal)
    (hset : SetB cat s x y z (some bb) liq = some s') :
    ∃ pal', s'.palette = some pal' ∧
      pal'.blockPositionData =
        (match bb.nbt with
         | some d =>
             aupdate pal.blockPositionData (toString (gridOffset s.l s.h x y z)) d
         | none => pal.blockPositionData) ∧
      (liq = none → pal'.blockPalette =
        (if lookup pal.blockPalette bb.name bb.props = -1 then
          pal.blockPalette ++ [⟨bb.name, bb.props, currentBlockVersion⟩]
         else pal.blockPalette)) ∧
      (lookup pal.blockPalette bb.name bb.props = -1 →
        ∀ bs, s'.blocks = some bs →
          getI bs (gridOffset s.l s.h x y z) = some (pal.blockPalette.length : Int)) := by
  unfold SetB at hset
  dsimp only at hset
  rw [ptrFor_eq cat s bb pal hpal] at hset
  by_cases hl : lookup pal.blockPalette bb.name bb.props = -1
  · rw [if_pos hl] at hset
    dsimp only at hset
    cases hb : s.blocks with
    | none => rw [hb] at hset; cases hset
    | some blocks =>
    rw [hb] at hset
    dsimp only at hset
    cases hsi : setI blocks (gridOffset s.l s.h x y z) (pal.blockPalette.length : Int) with
    | none => rw [hsi] at hset; cases hset
    | some blocks' =>
    rw [hsi] at hset
    dsimp only at hset
    cases hnbt : bb.nbt with
    | some payload =>
      rw [hnbt] at hset
      dsimp only at hset
      obtain ⟨pal', hp', hpd', hbl', hpn⟩ :=
        setLiquid_inv_posData cat _ s' _ liq _ rfl hset
      refine ⟨pal', hp', hpd', ?_, ?_⟩
      · intro hln
        rw [hpn hln, if_pos hl]
      · intro _ bs hbs
        rw [hbl'] at hbs
        dsimp only at hbs
        injection hbs with hbs'
        rw [← hbs']
        exact getI_setI blocks blocks' _ _ hsi
    | none =>
      rw [hnbt] at hset
      dsimp only at hset
      obtain ⟨pal', hp', hpd', hbl', hpn⟩ :=
        setLiquid_inv_posData cat _ s' _ liq _ rfl hset
      refine ⟨pal', hp', hpd', ?_, ?_⟩
      · intro hln
        rw [hpn hln, if_pos hl]
      · intro _ bs hbs
        rw [hbl'] at hbs
        dsimp only at hbs
        injection hbs with hbs'
        rw [← hbs']
        exact getI_setI blocks blocks' _ _ hsi
  · rw [if_neg hl] at hset
    dsimp only at hset
    cases hb : s.blocks with
    | none => rw [hb] at hset; cases hset
    | some blocks =>
    rw [hb] at hset
    dsimp only at hset
    cases hsi : setI blocks (gridOffset s.l s.h x y z) (lookup pal.blockPalette bb.name bb.props) with
    | none => rw [hsi] at hset; cases hset
    | some blocks' =>
    rw [hsi] at hset
    dsimp only at hset
    cases hnbt : bb.nbt with
    | some payload =>
      rw [hnbt] at hset
      dsimp only at hset
      rw [hpal] at hset
      dsimp only at hset
      obtain ⟨pal', hp', hpd', hbl', hpn⟩ :=
        setLiquid_inv_posData cat _ s' _ liq _ rfl hset
      refine ⟨pal', hp', hpd', ?_, ?_⟩
      · intro hln
        rw [hpn hln, if_neg hl]
      · intro hcon
        exact absurd hcon hl
    | none =>
      rw [hnbt] at hset
      dsimp only at hset
      obtain ⟨pal', hp', hpd', hbl', hpn⟩ :=
        setLiquid_inv_posData cat _ s' _ liq pal (by rw [hpal]) hset
      refine ⟨pal', hp', hpd', ?_, ?_⟩
      · intro hln
        rw [hpn hln, if_neg hl]
      · intro hcon
        exact absurd hcon hl

/-! ### Claim theorems -/

/-- C1: for every extent (sx, sy, sz) and every in-bounds coordinate, the
grid offset `gridOffset` used by `Set` and `At` (with `l = sz`, `h = sy`)
equals `x·(sz·sy) + y·sz + z`; and for extent (2,3,4) the offsets of the 24
in-bounds coordinates, enumerated in grid order, are exactly 0,…,23 — a
bijection onto [0,24). -/
theorem C1_offset_formula_and_bijection :
    (∀ sx sy sz x y z : Int, 0 ≤ x → x < sx → 0 ≤ y → y < sy → 0 ≤ z → z < sz →
      gridOffset sz sy x y z = x * (sz * sy) + y * sz + z) ∧
    (rotCoords 2 3 4).map (fun c => gridOffset 4 3 c.1 c.2.1 c.2.2)
      = (List.range 24).map (fun n => (n : Int)) := by
  constructor
  · intro sx sy sz x y z _ _ _ _ _ _
    unfold gridOffset
    ring
  · decide

/-- Witness for C1 at extent (2,3,4) and coordinate (1,2,3). -/
theorem C1_offset_witness :
    gridOffset 4 3 1 2 3 = 1 * (4 * 3) + 2 * 4 + 3 :=
  C1_offset_formula_and_bijection.1 2 3 4 1 2 3 (by decide) (by decide)
    (by decide) (by decide) (by decide) (by decide)

/-- C5 (code bug): `New` with extent (1,1,1) never returns the claimed
structure: it panics inside `prepare`, because the air entry is appended to
the palette after `parsePalette` already ran, leaving the parsed palette
empty when `prepare` takes the address of its first element. This holds for
every catalog. -/
theorem C5_new_panics : ∀ c : Catalog, NewB c 1 1 1 = none := fun _ => rfl

/-- C4 (code bug): `rotate` applied to a valid 2×5×7 document (successfully
read, so the claim's premise holds) produces nothing: it panics inside the
`New (7,5,2)` call (the `prepare` bug of C5) before any cell is copied, so no
rotated document of extent (7,5,2) exists. -/
theorem C4_rotate_panics :
    ReadB catEx raw257 = some s257 ∧ rotateB catEx s257 1 = none :=
  ⟨rfl, rfl⟩

/-- C8 (code bug): a left rotation of a valid, successfully read 1×1×1
document panics inside the initial `New` call, so the geometry copy and the
in-place palette-rotation pass the claim describes are never reached and no
new document is returned. -/
theorem C8_rotate_palette_pass_unreached :
    ReadB catEx rawTiny = some sTiny ∧ rotateB catEx sTiny (-1) = none :=
  ⟨rfl, rfl⟩

/-- C7 (code bug): a document that `check` accepts and `Read` returns can
make `At` fail at an in-bounds coordinate: `rawBadIndex` has its single cell
pointing at palette index 5 while the parsed palette holds one entry, so
`At(0,0,0)` reads past the array pinned by `palettePtr` (an out-of-range
unsafe access, modelled as failure). -/
theorem C7_at_fails_in_bounds :
    ReadB catEx rawBadIndex = some sBadIndex ∧ AtB sBadIndex 0 0 0 = none :=
  ⟨rfl, rfl⟩

/-- C2 (counterexample): on a freshly read valid document whose active
palette holds the single entry `("minecraft:air", {})`, calling `Set` with a
block of the same name but the distinct properties map `{k ↦ 1}` does not
grow the palette: `lookup` checks only the stored entry's keys, the stored
entry has none, so the new block dedups against it and the palette stays at
one entry — refuting "always grows the palette by exactly one". -/
theorem C2_dedup_counterexample :
    sTiny.palette = some ⟨[airEntry], []⟩ ∧
    ([("k", Val.vint 1)] : Props) ≠ airEntry.states ∧
    (SetB catEx sTiny 0 0 0
        (some ⟨"minecraft:air", [("k", .vint 1)], none, false⟩) none).map
      (fun s => s.palette.map (fun p => p.blockPalette.length)) = some (some 1) :=
  ⟨rfl, by decide, rfl⟩

/-- C6 (counterexample): a validly constructed document whose active palette
is named "custom" (the folded document passes `check`) does not survive the
write/read round trip: `Read` activates the absent "default" palette, leaving
the parsed palette empty, and panics in `prepare` — no document is returned
at all. -/
theorem C6_roundtrip_counterexample :
    WriteB sCustom = some rawCustom ∧
    check rawCustom = .ok rawCustom ∧
    ReadB catEx rawCustom = none :=
  ⟨rfl, rfl, rfl⟩

/-- C10 (counterexample): place a chest carrying payload P, overwrite the
cell with stone — the stale chest payload indeed remains stored — then place
a chest carrying payload Q at the same cell. `Set` overwrites the stored
payload with Q before `At` runs, so `At` merges Q, not the stale P: the stale
payload is not "merged into any NBT-capable block later placed". -/
theorem C10_payload_counterexample :
    (SetB catEx sChest1 0 0 0 (some stoneB) none = some sChest2 ∧
      sChest2.palette.map (fun p => p.blockPositionData) = some [("0", payloadP)]) ∧
    (SetB catEx sChest2 0 0 0 (some chestQ) none = some sChest3 ∧
      sChest3.palette.map (fun p => p.blockPositionData) = some [("0", payloadQ)]) ∧
    AtB sChest3 0 0 0
      = some (some ⟨"minecraft:chest", [], some payloadQ, false⟩, none) ∧
    payloadP ≠ payloadQ :=
  ⟨⟨rfl, rfl⟩, ⟨rfl, rfl⟩, rfl, by decide⟩

/-- C9: for every document whose `block_indices` holds exactly one layer and
that `Read` accepts (validation passes), every call to `Set` fails: `Set`
unconditionally writes the liquid layer — even for a nil liquid, writing the
`-1` sentinel — and the liquid slice of such a structure is nil, so the write
panics (and every other exit of `Set` on such a structure is a panic too). -/
theorem C9_single_layer_set_panics (cat : Catalog) (raw : RawStructure)
    (s : Struct) (x y z : Int) (b liq : Option Block)
    (hone : raw.blockIndices.length = 1)
    (hread : ReadB cat raw = some s) :
    SetB cat s x y z b liq = none := by
  obtain ⟨-, -, -, ⟨pal, hpal⟩, hliq⟩ := readB_some_inv cat raw s hread
  have hln : s.liquids = none := hliq (by omega)
  unfold SetB
  dsimp only
  cases b with
  | none => rfl
  | some bb =>
    dsimp only
    rw [ptrFor_eq cat s bb pal hpal]
    by_cases hl : lookup pal.blockPalette bb.name bb.props = -1
    · rw [if_pos hl]
      dsimp only
      cases hb : s.blocks with
      | none => rfl
      | some blocks =>
        dsimp only
        cases hsi : setI blocks (gridOffset s.l s.h x y z) (pal.blockPalette.length : Int) with
        | none => rfl
        | some blocks' =>
          dsimp only
          cases hnbt : bb.nbt with
          | some payload =>
            dsimp only
            exact setLiquid_none_of_noLayer cat _ _ liq hln
          | none =>
            exact setLiquid_none_of_noLayer cat _ _ liq hln
    · rw [if_neg hl]
      dsimp only
      cases hb : s.blocks with
      | none => rfl
      | some blocks =>
        dsimp only
        cases hsi : setI blocks (gridOffset s.l s.h x y z) (lookup pal.blockPalette bb.name bb.props) with
        | none => rfl
        | some blocks' =>
          dsimp only
          cases hnbt : bb.nbt with
          | some payload =>
            dsimp only
            rw [hpal]
            dsimp only
            exact setLiquid_none_of_noLayer cat _ _ liq hln
          | none =>
            exact setLiquid_none_of_noLayer cat _ _ liq hln

/-- Witness for C9: the concrete single-layer document `rawOneLayer` reads
successfully and `Set` at (0,0,0) fails on it. -/
theorem C9_single_layer_witness :
    SetB catEx sOneLayer 0 0 0 (some stoneB) none = none :=
  C9_single_layer_set_panics catEx rawOneLayer sOneLayer 0 0 0 (some stoneB)
    none rfl rfl

/-- C3: `check` rejects, in order and failing fast on the first violation: a
format version other than 1, a size triple of length ≠ 3, an origin triple of
length ≠ 3, no block-index layers, no palettes (after lazily initialising a
nil palette map — so an empty palette map fails with `noPalettes`), a layer
whose length differs from sx·sy·sz (`layerSizeMismatch`), and palettes of
differing entry counts; a successful `check` performs no repair beyond the
lazy initialisation; and `Read` returns no document on any validation
failure. -/
theorem C3_check_validation (s : RawStructure) :
    (s.formatVersion ≠ 1 → check s = .error .unsupportedVersion) ∧
    (s.formatVersion = 1 → s.size.length ≠ 3 → check s = .error .badExtent) ∧
    (s.formatVersion = 1 → s.size.length = 3 → s.origin.length ≠ 3 →
      check s = .error .badOrigin) ∧
    (s.formatVersion = 1 → s.size.length = 3 → s.origin.length = 3 →
      s.blockIndices.length = 0 → check s = .error .noLayers) ∧
    (s.formatVersion = 1 → s.size.length = 3 → s.origin.length = 3 →
      s.blockIndices.length ≠ 0 → (s.palettes.getD []).length = 0 →
      check s = .error .noPalettes) ∧
    (s.formatVersion = 1 → s.size.length = 3 → s.origin.length = 3 →
      s.blockIndices.length ≠ 0 → (s.palettes.getD []).length ≠ 0 →
      ¬ (∀ l ∈ s.blockIndices, (l.length : Int) = rawVolume s) →
      check s = .error .layerSizeMismatch) ∧
    (s.formatVersion = 1 → s.size.length = 3 → s.origin.length = 3 →
      s.blockIndices.length ≠ 0 → (s.palettes.getD []).length ≠ 0 →
      (∀ l ∈ s.blockIndices, (l.length : Int) = rawVolume s) →
      ¬ palLensEq (s.palettes.getD []) → check s = .error .paletteSizeMismatch) ∧
    (∀ r, check s = .ok r → r = {s with palettes := some (s.palettes.getD [])}) ∧
    (∀ e, check s = .error e → ∀ c : Catalog, ReadB c s = none) :=
  ⟨check_err_version s, check_err_extent s, check_err_origin s,
   check_err_noLayers s, check_err_noPalettes s, check_err_layer s,
   check_err_palLen s, fun r h => check_ok_shape s r h,
   fun e h c => readB_of_check_error s e h c⟩

/-- Witness for C3: a version-1 document with an empty palette map fails with
`noPalettes`. -/
theorem C3_check_witness :
    check ⟨1, [1, 1, 1], [0, 0, 0], [[0]], [], some []⟩ = .error .noPalettes :=
  (C3_check_validation ⟨1, [1, 1, 1], [0, 0, 0], [[0]], [], some []⟩).2.2.2.2.1
    rfl rfl rfl (by decide) rfl

/-- C2 (amended): on a successful `Set` of a block `b` with no liquid —
(a) if `b`'s encoded identity (name and exact states, well-formed) already
occurs in the active palette, the palette does not grow; (b) the palette
grows, by exactly the one appended entry, precisely when `lookup` misses,
i.e. when no stored same-name entry has all of its own state keys matched by
`b`'s properties (a distinct-but-superset properties map dedups and does not
grow the palette); (c) on a miss the pointer written into the grid cell is
the palette length before the append. -/
theorem C2_dedup_amended (cat : Catalog) (s s' : Struct) (pal : Pal)
    (x y z : Int) (b : Block)
    (hpal : s.palette = some pal)
    (hset : SetB cat s x y z (some b) none = some s') :
    ∃ pal', s'.palette = some pal' ∧
      (((b.props.map Prod.fst).Nodup →
        (∃ e ∈ pal.blockPalette, e.name = b.name ∧ e.states = b.props) →
        pal'.blockPalette = pal.blockPalette)) ∧
      (lookup pal.blockPalette b.name b.props ≠ -1 →
        pal'.blockPalette = pal.blockPalette) ∧
      (lookup pal.blockPalette b.name b.props = -1 →
        pal'.blockPalette = pal.blockPalette ++ [⟨b.name, b.props, currentBlockVersion⟩] ∧
        ∀ bs, s'.blocks = some bs →
          getI bs (gridOffset s.l s.h x y z) = some (pal.blockPalette.length : Int)) := by
  obtain ⟨pal', hp', hpd', hbp', hbl'⟩ := setB_inv cat s s' x y z b none pal hpal hset
  have hbp := hbp' rfl
  refine ⟨pal', hp', ?_, ?_, ?_⟩
  · intro hnd hex
    rw [hbp, if_neg (lookup_ne_neg_one pal.blockPalette b.name b.props hnd hex)]
  · intro hne
    rw [hbp, if_neg hne]
  · intro heq
    exact ⟨by rw [hbp, if_pos heq], fun bs hbs => hbl' heq bs hbs⟩

/-- Witness for C2: placing stone on the freshly read one-air-entry document
takes the `lookup`-miss branch, appending the stone entry at index 1. -/
theorem C2_dedup_witness :
    ∃ pal', sTinyStone.palette = some pal' ∧
      (((stoneB.props.map Prod.fst).Nodup →
        (∃ e ∈ [airEntry], e.name = stoneB.name ∧ e.states = stoneB.props) →
        pal'.blockPalette = [airEntry])) ∧
      (lookup [airEntry] stoneB.name stoneB.props ≠ -1 →
        pal'.blockPalette = [airEntry]) ∧
      (lookup [airEntry] stoneB.name stoneB.props = -1 →
        pal'.blockPalette = [airEntry] ++ [⟨stoneB.name, stoneB.props, currentBlockVersion⟩] ∧
        ∀ bs, sTinyStone.blocks = some bs →
          getI bs (gridOffset sTiny.l sTiny.h 0 0 0) = some ((1 : Nat) : Int)) :=
  C2_dedup_amended catEx sTiny sTinyStone ⟨[airEntry], []⟩ 0 0 0 stoneB rfl rfl

/-- C10 (amended): `Set` never removes entries from the position-keyed
auxiliary-payload table: a block without NBT capability leaves the table
entirely unchanged (a stale payload at that offset remains stored), while an
NBT-capable block overwrites the entry at the written offset with its own
encoded payload — which is therefore what a later `At` merges, rather than
the stale payload. -/
theorem C10_payload_amended (cat : Catalog) (s s' : Struct) (pal : Pal)
    (x y z : Int) (b : Block) (liq : Option Block)
    (hpal : s.palette = some pal)
    (hset : SetB cat s x y z (some b) liq = some s') :
    ∃ pal', s'.palette = some pal' ∧
      (b.nbt = none → pal'.blockPositionData = pal.blockPositionData) ∧
      (∀ d, b.nbt = some d → pal'.blockPositionData =
        aupdate pal.blockPositionData (toString (gridOffset s.l s.h x y z)) d) := by
  obtain ⟨pal', hp', hpd', -, -⟩ := setB_inv cat s s' x y z b liq pal hpal hset
  refine ⟨pal', hp', ?_, ?_⟩
  · intro hn
    rw [hpd', hn]
  · intro d hd
    rw [hpd', hd]

/-- Witness for C10: overwriting the chest cell with stone leaves the stored
chest payload untouched. -/
theorem C10_payload_witness :
    ∃ pal', sChest2.palette = some pal' ∧
      (stoneB.nbt = none → pal'.blockPositionData = [("0", payloadP)]) ∧
      (∀ d, stoneB.nbt = some d → pal'.blockPositionData =
        aupdate [("0", payloadP)] (toString (gridOffset sChest1.l sChest1.h 0 0 0)) d) :=
  C10_payload_amended catEx sChest1 sChest2
    ⟨[airEntry, chestEntry], [("0", payloadP)]⟩ 0 0 0 stoneB none rfl rfl

/-- C6 (amended): for a validly constructed document (its folded form passes
`check` unchanged) whose folded palette map carries a nonempty "default"
palette — in particular any document written without switching palettes —
reading back the written document succeeds and yields identical extent,
origin, grid contents at every offset, and exactly the folded palette map
(the active palette folded in under its name). -/
theorem C6_roundtrip_amended (cat : Catalog) (s : Struct) (pal defPal : Pal)
    (folded : RawStructure)
    (hpal : s.palette = some pal)
    (hw : WriteB s = some folded)
    (hchk : check folded = .ok folded)
    (hdef : alookup (folded.palettes.getD []) "default" = some defPal)
    (hne : defPal.blockPalette ≠ []) :
    ∃ s', ReadB cat folded = some s' ∧
      s'.raw.size = s.raw.size ∧ s'.raw.origin = s.raw.origin ∧
      s'.raw.blockIndices = s.raw.blockIndices ∧
      s'.raw.palettes = some (aupdate (s.raw.palettes.getD []) s.paletteName pal) := by
  have hfold : folded =
      {s.raw with palettes := some (aupdate (s.raw.palettes.getD []) s.paletteName pal)} := by
    unfold WriteB at hw
    rw [hpal] at hw
    dsimp only at hw
    injection hw with h'
    exact h'.symm
  obtain ⟨hv1, hsz, hor, hnl, hnp, hlay, hpl⟩ := check_ok_conds folded folded hchk
  have hs1raw : (UsePaletteB cat (mkStruct folded) "default").raw = folded := by
    rw [usePaletteB_mkStruct]
    rfl
  have hs1pp : (UsePaletteB cat (mkStruct folded) "default").parsedPalette
      = defPal.blockPalette.map (parseEntry cat) := by
    rw [usePaletteB_mkStruct]
    dsimp only
    rw [hdef]
    rfl
  obtain ⟨s', hprep, hraw', hpal', hpn'⟩ :=
    prepareB_isSome (UsePaletteB cat (mkStruct folded) "default")
      (by rw [hs1raw]; exact hsz)
      (by rw [hs1raw]; exact hlay)
      (by rw [hs1raw]; intro hh; exact hnl (by rw [hh]; rfl))
      (by rw [hs1pp]; simpa using hne)
  refine ⟨s', ?_, ?_, ?_, ?_, ?_⟩
  · unfold ReadB
    rw [hchk]
    exact hprep
  · rw [hraw', hs1raw, hfold]
  · rw [hraw', hs1raw, hfold]
  · rw [hraw', hs1raw, hfold]
  · rw [hraw', hs1raw, hfold]

/-- Witness for C6: the "default"-named 1×1×1 document round-trips. -/
theorem C6_roundtrip_witness :
    ∃ s', ReadB catEx rawDefault = some s' ∧
      s'.raw.size = sDefault.raw.size ∧ s'.raw.origin = sDefault.raw.origin ∧
      s'.raw.blockIndices = sDefault.raw.blockIndices ∧
      s'.raw.palettes = some (aupdate (sDefault.raw.palettes.getD [])
        sDefault.paletteName ⟨[airEntry], []⟩) :=
  C6_roundtrip_amended catEx sDefault ⟨[airEntry], []⟩ ⟨[airEntry], []⟩
    rawDefault rfl rfl rfl rfl (by decide)

end McStructure
